import Mathlib

/-!
Verification of `src/parse_describe.rs` (Rainicorn parse-describe tool).

Shallow embedding conventions:
* The external parsing engine (`syntex_syntax`) is excluded from the repository
  (spec §1 treats it as an opaque engine), so it is abstracted as a parameter:
  an `Engine` maps the source string to the list of diagnostic emissions it
  performs through the `Emitter` channels plus the `parse_crate` outcome.
* `fmt::Write` sinks are modelled by `Sink`: a written-so-far string plus a
  plan of which upcoming write calls fail (`fmt::Error`).  A working sink has
  an empty plan and never fails.
* Rust panics (process aborts) are modelled by `Except String` results at the
  handler level and by the `RunResult.panicked` constructor at the pipeline
  level; `try!` error propagation is the `RunResult.error` constructor.
* `source_model.rs`, `token_writer.rs` and `structure_visitor.rs` are
  repository files not present under `src/`; the definitions taken from them
  are modelled from the spec and carry a doc comment saying so.
-/

namespace ParseDescribe

/-- Modelled from the spec: `SourcePosition` of `source_model.rs` (missing from
src/): line is 1-based, column 0-based (spec §3).  Field names follow the uses
`sr.start_pos.line`, `sr.start_pos.col.0` in `parse_describe.rs`. -/
structure SourcePosition where
  line : Nat
  col : Nat
deriving DecidableEq

/-- Modelled from the spec: `SourceRange` of `source_model.rs` (missing from
src/): a start and an end position (spec §3). -/
structure SourceRange where
  start_pos : SourcePosition
  end_pos : SourcePosition
deriving DecidableEq

/-- Modelled from the spec: `StatusLevel` of `source_model.rs` (missing from
src/): the closed severity vocabulary {OK, WARNING, ERROR} (spec §3). -/
inductive StatusLevel where
  | OK
  | WARNING
  | ERROR
deriving DecidableEq

/-- Modelled from the spec: `SourceMessage` of `source_model.rs` (missing from
src/): status level, optional range, message text — field names and order as
used by `parse_describe.rs` (`msg.status_level`, `msg.sourcerange`,
`msg.message`). -/
structure SourceMessage where
  status_level : StatusLevel
  sourcerange : Option SourceRange
  message : String
deriving DecidableEq

/-- The native severity vocabulary `syntex_syntax::errors::Level`.  The
exhaustive (wildcard-free) `match` in `level_to_status_level` fixes these
seven constructors. -/
inductive Level where
  | Bug
  | Fatal
  | Error
  | Warning
  | Note
  | Help
  | Cancelled
deriving DecidableEq

/-- A `fmt::Write` sink: the text written so far, plus a plan saying for each
upcoming write call whether it fails (`fmt::Error`).  An empty plan means no
write ever fails (a working sink). -/
structure Sink where
  written : String
  failPlan : List Bool
deriving DecidableEq

/-- Outcome of a pipeline step threading a `Sink`:
`ok` = `Ok(_)` carrying the sink state, `error` = an `Err` propagated by
`try!` (the sink keeps what was already written), `panicked` = a Rust
`panic!` aborting the process, carrying the panic message. -/
inductive RunResult (α : Type) where
  | ok : α → Sink → RunResult α
  | error : Sink → RunResult α
  | panicked : String → RunResult α
deriving DecidableEq

/-- One write call on the sink: consumes the head of the fail plan; on failure
nothing is appended (the `fmt::Error` is returned for `try!` to propagate). -/
def Sink.write (σ : Sink) (s : String) : RunResult Unit :=
  match σ.failPlan with
  | [] => RunResult.ok () ⟨σ.written ++ s, []⟩
  | b :: rest =>
    if b then RunResult.error ⟨σ.written, rest⟩
    else RunResult.ok () ⟨σ.written ++ s, rest⟩

/-- Sequencing of sink steps: mirrors Rust `try!` chaining (an error or a
panic short-circuits). -/
def RunResult.andThen {α β : Type} (r : RunResult α) (k : α → Sink → RunResult β) :
    RunResult β :=
  match r with
  | RunResult.ok a σ => k a σ
  | RunResult.error σ => RunResult.error σ
  | RunResult.panicked m => RunResult.panicked m

/-- Modelled from the spec: the escaping applied by `TokenWriter`
(`token_writer.rs`, missing from src/) to string tokens — "quoted with
control/quote characters escaped" (spec §6), with backslash escaped as well so
the consumer can unescape unambiguously (spec §8 property 7, round-trip). -/
def escapeChar (c : Char) : String :=
  if c = '"' then "\\\""
  else if c = '\\' then "\\\\"
  else if c = '\n' then "\\n"
  else if c = '\t' then "\\t"
  else if c = '\r' then "\\r"
  else String.singleton c

/-- Escape every character of a string token's text. -/
def escapeString (s : String) : String :=
  String.join (s.data.map escapeChar)

/-- `TokenWriter::writeRaw`: raw passthrough emission (spec §4.5 (i)). -/
def writeRaw (σ : Sink) (s : String) : RunResult Unit :=
  σ.write s

/-- Modelled from the spec: `TokenWriter::writeStringToken`
(`token_writer.rs`, missing from src/): emits the quoted escaped token
followed by a separating space (spec §6 wire grammar
`... "<escaped message text>" }`). -/
def writeStringToken (σ : Sink) (s : String) : RunResult Unit :=
  σ.write ("\"" ++ escapeString s ++ "\" ")

/-- Modelled from the spec: the text `StatusLevel::output_string`
(`source_model.rs`, missing from src/) writes — the wire severity tags
`<SEVERITY> ∈ {OK, WARNING, ERROR}` (spec §6). -/
def statusLevelString : StatusLevel → String
  | StatusLevel.OK => "OK"
  | StatusLevel.WARNING => "WARNING"
  | StatusLevel.ERROR => "ERROR"

/-- `level_to_status_level` of `parse_describe.rs` lines 231–240.  The Rust
function panics on `Bug` and `Cancelled`; a panic is modelled as
`Except.error` carrying the panic message.  The `match` is exhaustive over the
seven `Level` constructors with no wildcard arm, exactly as in the source. -/
def level_to_status_level : Level → Except String StatusLevel
  | Level.Bug => Except.error "StatusLevel : BUG"
  | Level.Cancelled => Except.error "StatusLevel : CANCELLED"
  | Level.Help => Except.ok StatusLevel.OK
  | Level.Note => Except.ok StatusLevel.OK
  | Level.Warning => Except.ok StatusLevel.WARNING
  | Level.Error => Except.ok StatusLevel.ERROR
  | Level.Fatal => Except.ok StatusLevel.ERROR

/-- The boolean test `match lvl { Level::Help | Level::Note => true, _ => false }`
from `MessagesHandler::custom_emit`. -/
def levelIsHelpOrNote : Level → Bool
  | Level.Help => true
  | Level.Note => true
  | _ => false

/-- `MessagesHandler::writeMessage_handled`: builds a `SourceMessage` and
pushes it at the end of the accumulated vector (arrival order preserved; the
mutex is irrelevant in the single-threaded embedding). -/
def writeMessage_handled (msgs : List SourceMessage) (sourcerange : Option SourceRange)
    (msg : String) (lvl : StatusLevel) : List SourceMessage :=
  msgs ++ [{ status_level := lvl, sourcerange := sourcerange, message := msg }]

namespace MessagesHandler

/-- `Emitter::emit` for `MessagesHandler` (lines 202–219): an attached
diagnostic code panics (`Except.error`); otherwise the optional span — already
resolved to a `SourceRange`, since `SourceRange::new` against the codemap is
external resolution machinery — is recorded via `writeMessage_handled` with
the severity normalized by `level_to_status_level` (whose panics propagate). -/
def emit (msgs : List SourceMessage) (cmsp : Option SourceRange) (msg : String)
    (code : Option String) (lvl : Level) : Except String (List SourceMessage) :=
  match code with
  | some _ => Except.error "What is code: Option<&str>??"
  | none =>
    match level_to_status_level lvl with
    | Except.error e => Except.error e
    | Except.ok sl => Except.ok (writeMessage_handled msgs cmsp msg sl)

/-- `Emitter::custom_emit` for `MessagesHandler` (lines 221–227): `Help` and
`Note` entries return immediately (suppressed); every other entry is recorded
with no source range and normalized severity. -/
def custom_emit (msgs : List SourceMessage) (msg : String) (lvl : Level) :
    Except String (List SourceMessage) :=
  if levelIsHelpOrNote lvl then Except.ok msgs
  else
    match level_to_status_level lvl with
    | Except.error e => Except.error e
    | Except.ok sl => Except.ok (writeMessage_handled msgs none msg sl)

end MessagesHandler

/-- One diagnostic emission the engine performs during `parse_crate`, through
one of the two `Emitter` channels of `MessagesHandler`. -/
inductive EmitEvent where
  | emit (cmsp : Option SourceRange) (msg : String) (code : Option String) (lvl : Level)
  | custom_emit (msg : String) (lvl : Level)
deriving DecidableEq

/-- Dispatch one engine emission to the matching `MessagesHandler` channel. -/
def processEvent (msgs : List SourceMessage) : EmitEvent → Except String (List SourceMessage)
  | EmitEvent.emit cmsp msg code lvl => MessagesHandler.emit msgs cmsp msg code lvl
  | EmitEvent.custom_emit msg lvl => MessagesHandler.custom_emit msgs msg lvl

/-- Process the engine's emissions in order, accumulating the message vector;
an `Except.error` is a panic aborting the process. -/
def processEvents (msgs : List SourceMessage) : List EmitEvent → Except String (List SourceMessage)
  | [] => Except.ok msgs
  | e :: es =>
    match processEvent msgs e with
    | Except.error m => Except.error m
    | Except.ok msgs' => processEvents msgs' es

/-- The opaque syntax tree (`ast::Crate`) returned by a successful parse.  The
only use `parse_describe.rs` makes of it is handing it to `StructureVisitor`
(`structure_visitor.rs`, missing from src/); per spec §4.4 the visitor writes
the serialized outline through the writer, abstracted here as the text it
emits. -/
structure Crate where
  outlineText : String
deriving DecidableEq

/-- What one engine run produces: the emissions pushed through the `Emitter`
channels during `parse_crate`, and the `parse_crate` result (`PResult`
modelled as `Except`, the error payload dropped as the source drops `_err`). -/
structure EngineResult where
  events : List EmitEvent
  result : Except Unit Crate

/-- The external parsing engine as an abstract deterministic function of the
source text (spec §1 excludes the engine; `parse_crate` merely invokes it). -/
abbrev Engine := String → EngineResult

/-- Modelled from the spec: `visit::walk_crate` with a `StructureVisitor`
(`structure_visitor.rs`, missing from src/) writes the outline elements
through the token writer (spec §4.4, §2); abstracted as appending the crate's
serialized outline text to the sink. -/
def walk_crate (krate : Crate) (σ : Sink) : Sink :=
  { written := σ.written ++ krate.outlineText, failPlan := σ.failPlan }

/-- `outputString_Level` (lines 266–272): the severity tag then a space, as
two write calls. -/
def outputString_Level (lvl : StatusLevel) (σ : Sink) : RunResult Unit :=
  (σ.write (statusLevelString lvl)).andThen (fun _ σ => writeRaw σ " ")

/-- The text `outputString_SourceRange` formats (lines 274–282):
`{ startLine startCol endLine endCol }`. -/
def sourceRangeStr (sr : SourceRange) : String :=
  "\x7b " ++ toString sr.start_pos.line ++ " " ++ toString sr.start_pos.col ++ " "
    ++ toString sr.end_pos.line ++ " " ++ toString sr.end_pos.col ++ " \x7d"

/-- `outputString_SourceRange`: one formatted write. -/
def outputString_SourceRange (sr : SourceRange) (σ : Sink) : RunResult Unit :=
  σ.write (sourceRangeStr sr)

/-- `outputString_optSourceRange` (lines 284–294): `{ }` when no range, the
range tuple otherwise, then a separating space. -/
def outputString_optSourceRange (sr : Option SourceRange) (σ : Sink) : RunResult Unit :=
  (match sr with
   | none => σ.write "\x7b \x7d"
   | some sr => outputString_SourceRange sr σ).andThen (fun _ σ => σ.write " ")

/-- `output_message` (lines 248–263): `MESSAGE { `, severity, optional range,
string token, `}\n`, each `try!`-chained. -/
def output_message (σ : Sink) (opt_sr : Option SourceRange) (msg : String)
    (lvl : StatusLevel) : RunResult Unit :=
  (σ.write "MESSAGE \x7b ").andThen (fun _ σ =>
    (outputString_Level lvl σ).andThen (fun _ σ =>
      (outputString_optSourceRange opt_sr σ).andThen (fun _ σ =>
        (writeStringToken σ msg).andThen (fun _ σ =>
          σ.write "\x7d\n"))))

/-- The `for msg in &messages` loop of `parse_analysis_contents` (lines
116–118): one `output_message` per recorded message, in order. -/
def writeMessages (msgs : List SourceMessage) (σ : Sink) : RunResult Unit :=
  match msgs with
  | [] => RunResult.ok () σ
  | m :: rest =>
    (output_message σ m.sourcerange m.message m.status_level).andThen (fun _ σ =>
      writeMessages rest σ)

/-- `parse_analysis_contents` (lines 103–134): runs the engine (emissions
processed by `MessagesHandler`, a panic aborting everything), then writes
`MESSAGES {\n`, one line per message, `}`, and — only when `parse_crate`
succeeded — the `StructureVisitor` walk; a parse failure only skips the walk
(`Err(_err) => {}`). -/
def parse_analysis_contents (engine : Engine) (source : String) (σ : Sink) :
    RunResult Unit :=
  let er := engine source
  match processEvents [] er.events with
  | Except.error pmsg => RunResult.panicked pmsg
  | Except.ok msgs =>
    (σ.write "MESSAGES \x7b\n").andThen (fun _ σ =>
      (writeMessages msgs σ).andThen (fun _ σ =>
        (σ.write "\x7d").andThen (fun _ σ =>
          match er.result with
          | Except.error _ => RunResult.ok () σ
          | Except.ok krate => RunResult.ok () (walk_crate krate σ))))

/-- `parse_analysis_do` (lines 91–101): raw header, contents, raw footer. -/
def parse_analysis_do (engine : Engine) (source : String) (σ : Sink) :
    RunResult Unit :=
  (writeRaw σ "RUST_PARSE_DESCRIBE 0.1 \x7b\n").andThen (fun _ σ =>
    (parse_analysis_contents engine source σ).andThen (fun _ σ =>
      writeRaw σ "\n\x7d"))

/-- `parse_analysis` (lines 84–89): runs `parse_analysis_do` on the given sink
and returns the unwrapped sink as the `Ok` value. -/
def parse_analysis (engine : Engine) (source : String) (σ : Sink) :
    RunResult Sink :=
  match parse_analysis_do engine source σ with
  | RunResult.ok _ σ' => RunResult.ok σ' σ'
  | RunResult.error σ' => RunResult.error σ'
  | RunResult.panicked m => RunResult.panicked m

/-- `parse_analysis_forStdout` (lines 75–79): `.ok()` discards the analysis
result (keeping whatever was already written to stdout), `println!("")` then
writes the trailing newline (`println!` panics if that write fails), and
`io::stdout().flush().ok()` discards any flush failure without changing the
written text.  The return type has no error constructor: `none` is a process
abort, never a surfaced error. -/
def parse_analysis_forStdout (engine : Engine) (source : String) (stdout : Sink) :
    Option Sink :=
  let afterAnalysis : Option Sink :=
    match parse_analysis engine source stdout with
    | RunResult.ok _ σ => some σ
    | RunResult.error σ => some σ
    | RunResult.panicked _ => none
  match afterAnalysis with
  | none => none
  | some σ =>
    match σ.write "\n" with
    | RunResult.ok _ σ' => some σ'
    | RunResult.error _ => none
    | RunResult.panicked _ => none

/-- Modelled from the spec: `Path::file_name` of the Rust standard library,
on a path given as a `/`-separated string — the final component, absent when
the path is empty or ends in a separator (the std normalizations of `.` and
`..` are not modelled; they never equal `mod.rs`). -/
def pathFileName (path : String) : Option String :=
  match (path.splitOn "/").getLast? with
  | none => none
  | some s => if s = "" then none else some s

/-- The fixed placeholder module name `DummyFileLoader::new` stores (line
149). -/
def dummyFileLoaderModName : String := "mod.rs"

/-- `DummyFileLoader::file_exists` (lines 154–156): the candidate exists iff
its file name is the stored placeholder name. -/
def DummyFileLoader.file_exists (path : String) : Bool :=
  pathFileName path == some dummyFileLoaderModName

/-- `DummyFileLoader::read_file` (lines 158–160): always `Ok(String::new())`,
for every path, touching no storage. -/
def DummyFileLoader.read_file (_path : String) : Except Unit String :=
  Except.ok ""

/- ------------------ derived descriptions used in statements ------------------ -/

/-- The text of `<RANGE-OR-EMPTY>`: `{ }` when the diagnostic has no location,
the four-number tuple otherwise. -/
def optSourceRangeStr : Option SourceRange → String
  | none => "\x7b \x7d"
  | some sr => sourceRangeStr sr

/-- The full text of one `MESSAGE` line as `output_message` produces it. -/
def messageLineStr (m : SourceMessage) : String :=
  "MESSAGE \x7b " ++ statusLevelString m.status_level ++ " "
    ++ optSourceRangeStr m.sourcerange ++ " "
    ++ "\"" ++ escapeString m.message ++ "\" " ++ "\x7d\n"

/-- The text the outline step contributes: empty on parse failure, the
visitor's output on success. -/
def outlineOf : Except Unit Crate → String
  | Except.error _ => ""
  | Except.ok krate => krate.outlineText

/-- What a single engine emission contributes to the recorded message vector
when processing does not panic: `emit` without a code records its message
with its range, `custom_emit` records rangeless unless `Help`/`Note`. -/
def eventRecord : EmitEvent → Option SourceMessage
  | EmitEvent.emit cmsp msg code lvl =>
    match code with
    | some _ => none
    | none =>
      match level_to_status_level lvl with
      | Except.ok sl => some { status_level := sl, sourcerange := cmsp, message := msg }
      | Except.error _ => none
  | EmitEvent.custom_emit msg lvl =>
    if levelIsHelpOrNote lvl then none
    else
      match level_to_status_level lvl with
      | Except.ok sl => some { status_level := sl, sourcerange := none, message := msg }
      | Except.error _ => none

/-- A working sink holding text `w`: no write on it ever fails. -/
def wsink (w : String) : Sink := { written := w, failPlan := [] }

/-- The sink state a pipeline step ends in, when the process did not abort. -/
def finalSink {α : Type} : RunResult α → Option Sink
  | RunResult.ok _ σ => some σ
  | RunResult.error σ => some σ
  | RunResult.panicked _ => none

/-- The document text a completed `parse_analysis` run left in the sink. -/
def writtenOf (r : RunResult Sink) : Option String :=
  (finalSink r).map Sink.written

/-- Concatenation of a list of strings, used to state the text of the
`MESSAGES` block (one line per recorded message, in order). -/
def joinStrs : List String → String
  | [] => ""
  | s :: rest => s ++ joinStrs rest

/-- A concrete engine whose parse fails after emitting one located
ERROR-level diagnostic; used to instantiate universally quantified theorems
at a concrete input. -/
def engineErr : Engine := fun _ =>
  { events := [EmitEvent.emit
      (some { start_pos := { line := 1, col := 0 },
              end_pos := { line := 1, col := 3 } })
      "expected item" none Level.Error],
    result := Except.error () }

/-- A concrete engine that emits nothing and fails the parse. -/
def engineSilentFail : Engine := fun _ =>
  { events := [], result := Except.error () }

/-- A concrete engine that emits the same ERROR-level diagnostic twice and
fails the parse; exercises the no-deduplication behavior. -/
def engineDup : Engine := fun _ =>
  { events := [EmitEvent.emit none "dup" none Level.Error,
               EmitEvent.emit none "dup" none Level.Error],
    result := Except.error () }

/- ------------------ helper lemmas ------------------ -/

/-- A write on a working sink appends the text and stays working. -/
theorem wsink_write (w s : String) :
    (wsink w).write s = RunResult.ok () (wsink (w ++ s)) := rfl

/-- The visitor walk on a working sink appends the outline text. -/
theorem walk_crate_wsink (krate : Crate) (w : String) :
    walk_crate krate (wsink w) = wsink (w ++ krate.outlineText) := rfl

/-- `output_message` on a working sink appends exactly one `MESSAGE` line. -/
theorem output_message_wsink (w : String) (sr : Option SourceRange) (msg : String)
    (lvl : StatusLevel) :
    output_message (wsink w) sr msg lvl =
      RunResult.ok () (wsink (w ++ messageLineStr
        { status_level := lvl, sourcerange := sr, message := msg })) := by
  cases sr <;>
    simp [output_message, outputString_Level, outputString_optSourceRange,
      outputString_SourceRange, writeStringToken, writeRaw, wsink_write,
      RunResult.andThen, messageLineStr, optSourceRangeStr,
      ← String.append_assoc]

/-- The message loop on a working sink appends one line per message, in
order. -/
theorem writeMessages_wsink (msgs : List SourceMessage) :
    ∀ w : String, writeMessages msgs (wsink w) =
      RunResult.ok () (wsink (w ++ joinStrs (msgs.map messageLineStr))) := by
  induction msgs with
  | nil => intro w; simp [writeMessages, joinStrs]
  | cons m rest ih =>
    intro w
    obtain ⟨sl, sr, msg⟩ := m
    simp [writeMessages, output_message_wsink, RunResult.andThen, ih, joinStrs,
      ← String.append_assoc]

/-- `parse_analysis_contents` on a working sink, when event processing does
not panic: the `MESSAGES` block followed by the outline text iff the parse
succeeded. -/
theorem parse_analysis_contents_wsink (engine : Engine) (source : String)
    (msgs : List SourceMessage) (w : String)
    (h : processEvents [] (engine source).events = Except.ok msgs) :
    parse_analysis_contents engine source (wsink w) =
      RunResult.ok () (wsink (w ++ "MESSAGES \x7b\n" ++ joinStrs (msgs.map messageLineStr)
        ++ "\x7d" ++ outlineOf (engine source).result)) := by
  cases hres : (engine source).result with
  | error u =>
    simp [parse_analysis_contents, h, hres, wsink_write, RunResult.andThen,
      writeMessages_wsink, outlineOf, ← String.append_assoc]
  | ok krate =>
    simp [parse_analysis_contents, h, hres, wsink_write, RunResult.andThen,
      writeMessages_wsink, outlineOf, walk_crate_wsink, ← String.append_assoc]

/-- `parse_analysis_do` on a working sink: the full document. -/
theorem parse_analysis_do_wsink (engine : Engine) (source : String)
    (msgs : List SourceMessage) (w : String)
    (h : processEvents [] (engine source).events = Except.ok msgs) :
    parse_analysis_do engine source (wsink w) =
      RunResult.ok () (wsink (w ++ "RUST_PARSE_DESCRIBE 0.1 \x7b\n" ++ "MESSAGES \x7b\n"
        ++ joinStrs (msgs.map messageLineStr) ++ "\x7d"
        ++ outlineOf (engine source).result ++ "\n\x7d")) := by
  have hc := parse_analysis_contents_wsink engine source msgs
    (w ++ "RUST_PARSE_DESCRIBE 0.1 \x7b\n") h
  simp [parse_analysis_do, writeRaw, wsink_write, RunResult.andThen, hc,
    ← String.append_assoc]

/-- A successful write appends its text to the sink. -/
theorem write_ok_written (σ σ' : Sink) (s : String)
    (h : σ.write s = RunResult.ok () σ') :
    σ'.written = σ.written ++ s := by
  unfold Sink.write at h
  cases hp : σ.failPlan with
  | nil =>
    rw [hp] at h
    simp at h
    rw [← h]
  | cons b rest =>
    rw [hp] at h
    cases b
    · simp at h
      rw [← h]
    · simp at h

/-- A single non-panicking `processEvent` appends exactly what `eventRecord`
describes. -/
theorem processEvent_ok_eq (acc out : List SourceMessage) (e : EmitEvent)
    (h : processEvent acc e = Except.ok out) :
    out = acc ++ (eventRecord e).toList := by
  cases e with
  | emit cmsp msg code lvl =>
    cases code with
    | some c => simp [processEvent, MessagesHandler.emit] at h
    | none =>
      cases hl : level_to_status_level lvl with
      | error m => simp [processEvent, MessagesHandler.emit, hl] at h
      | ok sl =>
        simp [processEvent, MessagesHandler.emit, hl, writeMessage_handled] at h
        simp [eventRecord, hl, ← h]
  | custom_emit msg lvl =>
    cases hA : levelIsHelpOrNote lvl with
    | true =>
      simp [processEvent, MessagesHandler.custom_emit, hA] at h
      simp [eventRecord, hA, ← h]
    | false =>
      cases hl : level_to_status_level lvl with
      | error m => simp [processEvent, MessagesHandler.custom_emit, hA, hl] at h
      | ok sl =>
        simp [processEvent, MessagesHandler.custom_emit, hA, hl,
          writeMessage_handled] at h
        simp [eventRecord, hA, hl, ← h]

/-- Non-panicking event processing computes exactly the in-order
`filterMap` of the per-event records. -/
theorem processEvents_ok_eq (es : List EmitEvent) :
    ∀ acc msgs : List SourceMessage, processEvents acc es = Except.ok msgs →
      msgs = acc ++ es.filterMap eventRecord := by
  induction es with
  | nil =>
    intro acc msgs h
    simp [processEvents] at h
    simp [← h]
  | cons e es ih =>
    intro acc msgs h
    unfold processEvents at h
    cases hp : processEvent acc e with
    | error m => rw [hp] at h; cases h
    | ok acc' =>
      rw [hp] at h
      have h1 := ih acc' msgs h
      have h2 := processEvent_ok_eq acc acc' e hp
      subst h2
      cases her : eventRecord e <;>
        simp [her, List.filterMap_cons, List.append_assoc] at h1 ⊢ <;>
        exact h1

/- ------------------ claim theorems ------------------ -/

/-- Claim C1: for every engine behavior and input source string, whenever a
run completes (the engine's emissions do not trip a panic), `parse_analysis_do`
on a fresh working sink emits exactly one document: the raw header
`RUST_PARSE_DESCRIBE 0.1 {`, the `MESSAGES` block with exactly one
`MESSAGE { <SEVERITY> <RANGE-OR-EMPTY> "<escaped text>" }` line per captured
diagnostic, followed (only when the parse succeeded) by the outline text, and
the closing `}` — also when the parse fails; the range part of every message
line is `{ }` when the diagnostic has no location and the four-number tuple
otherwise. -/
theorem parse_analysis_do_emits_single_document (engine : Engine) (source : String)
    (msgs : List SourceMessage)
    (h : processEvents [] (engine source).events = Except.ok msgs) :
    parse_analysis_do engine source (wsink "") =
      RunResult.ok () (wsink ("RUST_PARSE_DESCRIBE 0.1 \x7b\n" ++ "MESSAGES \x7b\n"
        ++ joinStrs (msgs.map messageLineStr) ++ "\x7d"
        ++ outlineOf (engine source).result ++ "\n\x7d"))
    ∧ (msgs.map messageLineStr).length = msgs.length
    ∧ optSourceRangeStr none = "\x7b \x7d"
    ∧ (∀ sr : SourceRange, optSourceRangeStr (some sr) = "\x7b "
        ++ toString sr.start_pos.line ++ " " ++ toString sr.start_pos.col ++ " "
        ++ toString sr.end_pos.line ++ " " ++ toString sr.end_pos.col ++ " \x7d")
    ∧ (∀ m : SourceMessage, messageLineStr m = "MESSAGE \x7b "
        ++ statusLevelString m.status_level ++ " " ++ optSourceRangeStr m.sourcerange
        ++ " " ++ "\"" ++ escapeString m.message ++ "\" " ++ "\x7d\n") := by
  refine ⟨?_, by simp, rfl, fun sr => rfl, fun m => rfl⟩
  have hd := parse_analysis_do_wsink engine source msgs "" h
  simpa using hd

/-- Witness for C1: the concrete failing-parse engine emitting one located
ERROR diagnostic. -/
theorem parse_analysis_do_emits_single_document_witness :
    parse_analysis_do engineErr "fn" (wsink "") =
      RunResult.ok () (wsink ("RUST_PARSE_DESCRIBE 0.1 \x7b\n" ++ "MESSAGES \x7b\n"
        ++ joinStrs (([{ status_level := StatusLevel.ERROR,
                         sourcerange := some { start_pos := { line := 1, col := 0 },
                                               end_pos := { line := 1, col := 3 } },
                         message := "expected item" }] : List SourceMessage).map messageLineStr)
        ++ "\x7d" ++ outlineOf (engineErr "fn").result ++ "\n\x7d"))
    ∧ (([{ status_level := StatusLevel.ERROR,
           sourcerange := some { start_pos := { line := 1, col := 0 },
                                 end_pos := { line := 1, col := 3 } },
           message := "expected item" }] : List SourceMessage).map messageLineStr).length
        = ([{ status_level := StatusLevel.ERROR,
              sourcerange := some { start_pos := { line := 1, col := 0 },
                                    end_pos := { line := 1, col := 3 } },
              message := "expected item" }] : List SourceMessage).length
    ∧ optSourceRangeStr none = "\x7b \x7d"
    ∧ (∀ sr : SourceRange, optSourceRangeStr (some sr) = "\x7b "
        ++ toString sr.start_pos.line ++ " " ++ toString sr.start_pos.col ++ " "
        ++ toString sr.end_pos.line ++ " " ++ toString sr.end_pos.col ++ " \x7d")
    ∧ (∀ m : SourceMessage, messageLineStr m = "MESSAGE \x7b "
        ++ statusLevelString m.status_level ++ " " ++ optSourceRangeStr m.sourcerange
        ++ " " ++ "\"" ++ escapeString m.message ++ "\" " ++ "\x7d\n") :=
  parse_analysis_do_emits_single_document engineErr "fn"
    [{ status_level := StatusLevel.ERROR,
       sourcerange := some { start_pos := { line := 1, col := 0 },
                             end_pos := { line := 1, col := 3 } },
       message := "expected item" }] rfl

/-- Claim C2: `level_to_status_level` is total on the engine's severity
vocabulary and maps Help and Note to OK, Warning to WARNING, Error and Fatal
to ERROR; on Bug and Cancelled it returns no `StatusLevel` but aborts the
process (modelled as `Except.error` with the panic message); the underlying
match is exhaustive with no wildcard arm. -/
theorem level_to_status_level_total_mapping :
    level_to_status_level Level.Help = Except.ok StatusLevel.OK
    ∧ level_to_status_level Level.Note = Except.ok StatusLevel.OK
    ∧ level_to_status_level Level.Warning = Except.ok StatusLevel.WARNING
    ∧ level_to_status_level Level.Error = Except.ok StatusLevel.ERROR
    ∧ level_to_status_level Level.Fatal = Except.ok StatusLevel.ERROR
    ∧ level_to_status_level Level.Bug = Except.error "StatusLevel : BUG"
    ∧ level_to_status_level Level.Cancelled = Except.error "StatusLevel : CANCELLED" :=
  ⟨rfl, rfl, rfl, rfl, rfl, rfl, rfl⟩

/-- Claim C3: a parse failure is not escalated: on a working sink the call
returns `ok`, the captured diagnostics are serialized into the `MESSAGES`
block, and no outline text is written (the syntax-tree walk is omitted). -/
theorem parse_failure_not_escalated (engine : Engine) (source : String)
    (msgs : List SourceMessage) (w : String)
    (hfail : (engine source).result = Except.error ())
    (h : processEvents [] (engine source).events = Except.ok msgs) :
    parse_analysis_contents engine source (wsink w) =
      RunResult.ok () (wsink (w ++ "MESSAGES \x7b\n"
        ++ joinStrs (msgs.map messageLineStr) ++ "\x7d")) := by
  have hc := parse_analysis_contents_wsink engine source msgs w h
  rw [hfail] at hc
  simpa [outlineOf] using hc

/-- Witness for C3: the concrete failing-parse engine. -/
theorem parse_failure_not_escalated_witness :
    parse_analysis_contents engineErr "bad" (wsink "") =
      RunResult.ok () (wsink ("" ++ "MESSAGES \x7b\n"
        ++ joinStrs (([{ status_level := StatusLevel.ERROR,
                         sourcerange := some { start_pos := { line := 1, col := 0 },
                                               end_pos := { line := 1, col := 3 } },
                         message := "expected item" }] : List SourceMessage).map messageLineStr)
        ++ "\x7d")) :=
  parse_failure_not_escalated engineErr "bad"
    [{ status_level := StatusLevel.ERROR,
       sourcerange := some { start_pos := { line := 1, col := 0 },
                             end_pos := { line := 1, col := 3 } },
       message := "expected item" }] "" rfl rfl

/-- Counterexample to Claim C4 as stated: an `emit` with no attached code but
severity `Bug` is not recorded — `level_to_status_level` panics first, so the
call aborts the process instead of appending a diagnostic. -/
theorem emit_no_code_bug_level_aborts :
    MessagesHandler.emit [] none "x" none Level.Bug
      = Except.error "StatusLevel : BUG" := rfl

/-- Claim C4 (amended): on the `Emitter::emit` channel an attached diagnostic
code aborts the process immediately at any severity; with no code the
diagnostic is recorded normally provided the severity has a representable
mapping, while the Bug and Cancelled severities abort in the severity mapping
instead of recording. -/
theorem emit_code_aborts_else_records (msgs : List SourceMessage)
    (cmsp : Option SourceRange) (msg : String) (lvl : Level) :
    (∀ c : String, MessagesHandler.emit msgs cmsp msg (some c) lvl
        = Except.error "What is code: Option<&str>??")
    ∧ (∀ sl : StatusLevel, level_to_status_level lvl = Except.ok sl →
        MessagesHandler.emit msgs cmsp msg none lvl
          = Except.ok (msgs ++ [{ status_level := sl, sourcerange := cmsp,
                                  message := msg }]))
    ∧ (∀ e : String, level_to_status_level lvl = Except.error e →
        MessagesHandler.emit msgs cmsp msg none lvl = Except.error e) := by
  refine ⟨fun c => rfl, fun sl hsl => ?_, fun e he => ?_⟩
  · simp [MessagesHandler.emit, hsl, writeMessage_handled]
  · simp [MessagesHandler.emit, he]

/-- Witness for C4 (amended): a coded Warning emission aborts; an uncoded
Warning emission is recorded. -/
theorem emit_code_aborts_else_records_witness :
    MessagesHandler.emit [] none "x" (some "E0001") Level.Warning
      = Except.error "What is code: Option<&str>??"
    ∧ MessagesHandler.emit [] none "x" none Level.Warning
      = Except.ok [{ status_level := StatusLevel.WARNING, sourcerange := none,
                     message := "x" }] := by
  refine ⟨(emit_code_aborts_else_records [] none "x" Level.Warning).1 "E0001", ?_⟩
  have hr := (emit_code_aborts_else_records [] none "x" Level.Warning).2.1
    StatusLevel.WARNING rfl
  simpa using hr

/-- Claim C5: capture and serialization preserve arrival order without
deduplication: a non-panicking run records exactly the in-order `filterMap`
of the emissions (duplicates kept), and the `MESSAGES` block holds exactly
one line per recorded diagnostic, in that order. -/
theorem diagnostics_order_preserved_no_dedup (events : List EmitEvent)
    (msgs : List SourceMessage) (w : String)
    (h : processEvents [] events = Except.ok msgs) :
    msgs = events.filterMap eventRecord
    ∧ writeMessages msgs (wsink w)
        = RunResult.ok () (wsink (w ++ joinStrs (msgs.map messageLineStr)))
    ∧ (msgs.map messageLineStr).length = msgs.length := by
  refine ⟨?_, writeMessages_wsink msgs w, by simp⟩
  simpa using processEvents_ok_eq events [] msgs h

/-- Witness for C5: two identical ERROR emissions are both recorded, in
order. -/
theorem diagnostics_order_preserved_no_dedup_witness :
    ([{ status_level := StatusLevel.ERROR, sourcerange := none, message := "dup" },
      { status_level := StatusLevel.ERROR, sourcerange := none, message := "dup" }]
        : List SourceMessage)
      = [EmitEvent.emit none "dup" none Level.Error,
         EmitEvent.emit none "dup" none Level.Error].filterMap eventRecord
    ∧ writeMessages
        [{ status_level := StatusLevel.ERROR, sourcerange := none, message := "dup" },
         { status_level := StatusLevel.ERROR, sourcerange := none, message := "dup" }]
        (wsink "")
        = RunResult.ok () (wsink ("" ++ joinStrs
            (([{ status_level := StatusLevel.ERROR, sourcerange := none, message := "dup" },
               { status_level := StatusLevel.ERROR, sourcerange := none, message := "dup" }]
                 : List SourceMessage).map messageLineStr)))
    ∧ (([{ status_level := StatusLevel.ERROR, sourcerange := none, message := "dup" },
        { status_level := StatusLevel.ERROR, sourcerange := none, message := "dup" }]
          : List SourceMessage).map messageLineStr).length
        = ([{ status_level := StatusLevel.ERROR, sourcerange := none, message := "dup" },
           { status_level := StatusLevel.ERROR, sourcerange := none, message := "dup" }]
             : List SourceMessage).length :=
  diagnostics_order_preserved_no_dedup
    [EmitEvent.emit none "dup" none Level.Error,
     EmitEvent.emit none "dup" none Level.Error]
    [{ status_level := StatusLevel.ERROR, sourcerange := none, message := "dup" },
     { status_level := StatusLevel.ERROR, sourcerange := none, message := "dup" }]
    "" rfl

/-- Claim C6: on the free-form `custom_emit` channel, Help and Note entries
are suppressed entirely (nothing appended), while Warning, Error and Fatal
entries are recorded with no source range and severity normalized by the
standard mapping. -/
theorem custom_emit_suppresses_advisory (msgs : List SourceMessage) (msg : String) :
    MessagesHandler.custom_emit msgs msg Level.Help = Except.ok msgs
    ∧ MessagesHandler.custom_emit msgs msg Level.Note = Except.ok msgs
    ∧ MessagesHandler.custom_emit msgs msg Level.Warning
        = Except.ok (msgs ++ [{ status_level := StatusLevel.WARNING,
                                sourcerange := none, message := msg }])
    ∧ MessagesHandler.custom_emit msgs msg Level.Error
        = Except.ok (msgs ++ [{ status_level := StatusLevel.ERROR,
                                sourcerange := none, message := msg }])
    ∧ MessagesHandler.custom_emit msgs msg Level.Fatal
        = Except.ok (msgs ++ [{ status_level := StatusLevel.ERROR,
                                sourcerange := none, message := msg }]) :=
  ⟨rfl, rfl, rfl, rfl, rfl⟩

/-- Claim C7: `DummyFileLoader` reports a candidate module file as existing
iff its file name is the fixed placeholder `mod.rs`, and reading any path
returns `Ok("")` without touching storage. -/
theorem dummyFileLoader_contract (p : String) :
    (DummyFileLoader.file_exists p = true ↔ pathFileName p = some "mod.rs")
    ∧ DummyFileLoader.read_file p = Except.ok "" := by
  constructor
  · simp [DummyFileLoader.file_exists, dummyFileLoaderModName]
  · rfl

/-- Claim C9: the pipeline is deterministic: two calls of `parse_analysis` on
the same source with fresh empty working sinks leave byte-identical document
texts (the embedding is a pure function of the engine and the source; the
code consults no clock, randomness or global mutable state). -/
theorem parse_analysis_deterministic (engine : Engine) (source : String) :
    writtenOf (parse_analysis engine source (wsink ""))
      = writtenOf (parse_analysis engine source (wsink "")) := rfl

/-- Claim C10: `parse_analysis_forStdout` discards the analysis result —
including an output-channel write failure — via `.ok()`, then prints the
trailing newline after whatever document text exists (complete or not) and
discards any flush failure: whenever the analysis did not abort the process
and the newline write succeeds, the call completes with the analysis's final
text plus `"\n"`, surfacing no error to the caller. -/
theorem forStdout_discards_errors (engine : Engine) (source : String)
    (σ σ' σ'' : Sink)
    (h1 : finalSink (parse_analysis engine source σ) = some σ')
    (h2 : σ'.write "\n" = RunResult.ok () σ'') :
    parse_analysis_forStdout engine source σ = some σ''
    ∧ σ''.written = σ'.written ++ "\n" := by
  refine ⟨?_, write_ok_written σ' σ'' "\n" h2⟩
  cases hr : parse_analysis engine source σ with
  | ok a s =>
    simp [finalSink, hr] at h1
    subst h1
    simp [parse_analysis_forStdout, hr, h2]
  | error s =>
    simp [finalSink, hr] at h1
    subst h1
    simp [parse_analysis_forStdout, hr, h2]
  | panicked m => simp [finalSink, hr] at h1

/-- Witness for C10: a sink whose very first write fails — the analysis
returns an error, which is discarded; the trailing newline is still printed
and the call completes. -/
theorem forStdout_discards_errors_witness :
    parse_analysis_forStdout engineSilentFail "x" { written := "", failPlan := [true] }
      = some { written := "\n", failPlan := [] }
    ∧ ({ written := "\n", failPlan := [] } : Sink).written
      = ({ written := "", failPlan := [] } : Sink).written ++ "\n" :=
  forStdout_discards_errors engineSilentFail "x"
    { written := "", failPlan := [true] }
    { written := "", failPlan := [] }
    { written := "\n", failPlan := [] } rfl rfl

end ParseDescribe
